import Mathlib

/-!
Verification of the `stencil` templating engine (files `stencil/__init__.py`
and `stencil/builder.py`) against its natural-language specification.

The development is a shallow embedding of the Python source: each Python
function is translated into an executable Lean definition over `List Char` /
`String`, with Python exceptions modelled by an explicit error type carried
in `Except`.  Machine-level Python behaviour that the source relies on
(`re.split` with the exact pattern of line 96, `str.strip`/`str.split`,
slicing `s[2:-2]`, `repr`, the identifier regex of `_variable`, dict `copy`
and `update`, and the semantics of the generated code that
`CodeBuilder.get_globals` would `exec`) is embedded explicitly and faithfully
for the value domain exercised here (printable ASCII strings).
-/

namespace Stencil

/-- The Python exceptions the embedded code can raise.  `stencil` is
`StencilError` as raised by `Template._error` (message `"{msg}: {where!r}"`;
the two format arguments are kept as fields).  The other constructors are the
built-in Python exceptions reachable in this code: `indexError` from
`words[0]` on an empty list, `syntaxError` from `exec` of an ill-formed
generated line, `assertionError` from `assert self._indent == 0` in
`CodeBuilder.get_globals`, `unboundLocalError` and `nameError` at render
time, and `keyError` for a failed subscript lookup in `_do_dots`. -/
inductive PyErr where
  | stencil (msg : String) (whereArg : String)
  | indexError
  | syntaxError
  | assertionError
  | unboundLocalError
  | nameError
  | keyError (name : String)
deriving Repr, DecidableEq

/-! ## Python string primitives used by the source -/

/-- Python's `str` whitespace (ASCII), as used by `str.strip()` and
`str.split()` with no argument. -/
def isPyWs (c : Char) : Bool :=
  c == ' ' || c == '\t' || c == '\n' || c == '\r' || c == '\x0b' || c == '\x0c'

/-- Python `s.strip()`. -/
def pyStrip (s : String) : String :=
  String.mk (((s.data.dropWhile isPyWs).reverse.dropWhile isPyWs).reverse)

/-- Helper for `pySplitWs`: accumulates the current word reversed. -/
def pySplitWsAux : List Char → List Char → List String
  | [], cur => if cur.isEmpty then [] else [String.mk cur.reverse]
  | c :: cs, cur =>
    if isPyWs c then
      if cur.isEmpty then pySplitWsAux cs []
      else String.mk cur.reverse :: pySplitWsAux cs []
    else pySplitWsAux cs (c :: cur)

/-- Python `s.split()` with no argument: split on whitespace runs, no empty
parts. -/
def pySplitWs (s : String) : List String := pySplitWsAux s.data []

/-- Python `s.split(sep)` for a one-character separator, returned as the
(always present) first part paired with the remaining parts, so that callers
need no nonempty-list reasoning.  `"".split(sep) = [""]`,
`"|".split("|") = ["", ""]`, matching Python. -/
def charSplit1 : Char → List Char → List Char × List (List Char)
  | _, [] => ([], [])
  | sep, c :: cs =>
    let (h, t) := charSplit1 sep cs
    if c == sep then ([], h :: t) else (c :: h, t)

/-- Python `s[2:-2]`. -/
def pySlice2m2 (s : String) : String :=
  String.mk ((s.data.take (s.data.length - 2)).drop 2)

/-- Python `', '.join(parts)`. -/
def joinComma : List String → String
  | [] => ""
  | [x] => x
  | x :: rest => x ++ ", " ++ joinComma rest

/-- Quote character Python's `repr` chooses for a `str`: double quotes when
the string has a single quote and no double quote, else single quotes. -/
def pyReprQuote (hasSingle hasDouble : Bool) : Char :=
  if hasSingle && !hasDouble then '"' else '\''

/-- One character of Python `repr` output under quote `q` (covers the
printable-ASCII inputs arising here, plus the common escapes). -/
def pyReprEsc (q c : Char) : String :=
  if c == '\\' then "\\\\"
  else if c == q then String.mk ['\\', c]
  else if c == '\n' then "\\n"
  else if c == '\r' then "\\r"
  else if c == '\t' then "\\t"
  else String.mk [c]

/-- Python `repr` of a `str` (printable-ASCII fragment of it). -/
def pyRepr (s : String) : String :=
  let q := pyReprQuote (s.data.any (· == '\'')) (s.data.any (· == '"'))
  String.mk [q] ++ String.join (s.data.map (pyReprEsc q)) ++ String.mk [q]

/-! ## The tokenizer: `re.split(r'(?s) ({{ .*? }} | {% .*? %} | {# .*? #})', text)`

The pattern of `__init__.py` line 96 is embedded verbatim, spaces included:
the separator is a literal space followed by one of the three alternatives
tried in order, each alternative being a literal opener, a lazy `.*?` body
(shortest completion first, `(?s)` so any character), and a literal closer.
Note the first two alternatives end in a space and the last two begin with
one, exactly as in the source's pattern. -/

/-- The least index at which `pat` occurs as a sublist of `cs` (the lazy
`.*?` takes the earliest completion). -/
def firstMatchIdx (pat : List Char) : List Char → Option Nat
  | [] => if pat.isEmpty then some 0 else none
  | c :: cs =>
    if pat.isPrefixOf (c :: cs) then some 0
    else (firstMatchIdx pat cs).map (· + 1)

/-- Match one alternative `pre .*? suf` at the start of `cs`; returns the
length of the matched text. -/
def lazyAlt (pre suf cs : List Char) : Option Nat :=
  if pre.isPrefixOf cs then
    match firstMatchIdx suf (cs.drop pre.length) with
    | some j => some (pre.length + j + suf.length)
    | none => none
  else none

/-- Match the full separator pattern at the start of `cs`: a space (outside
the capture group), then the first alternative that matches.  Returns the
captured group and the total number of characters consumed. -/
def pySplitMatchAt (cs : List Char) : Option (List Char × Nat) :=
  match cs with
  | ' ' :: rest =>
    match lazyAlt "\x7b\x7b ".data " \x7d\x7d ".data rest with
    | some k => some (rest.take k, 1 + k)
    | none =>
      match lazyAlt " \x7b% ".data " %\x7d ".data rest with
      | some k => some (rest.take k, 1 + k)
      | none =>
        match lazyAlt " \x7b# ".data " #\x7d".data rest with
        | some k => some (rest.take k, 1 + k)
        | none => none
  | _ => none

/-- Left-to-right scan of `re.split` with one capture group: literal
segments interleaved with captured separators.  Structural recursion on a
fuel argument (every step consumes at least one character, so
`length + 1` fuel always suffices and the base case is unreachable). -/
def pySplitAuxF : Nat → List Char → List Char → List String → List String
  | 0, cs, seg, acc => acc ++ [String.mk (seg.reverse ++ cs)]
  | fuel + 1, cs, seg, acc =>
    match pySplitMatchAt cs with
    | some (cap, k) =>
      pySplitAuxF fuel (cs.drop k) [] (acc ++ [String.mk seg.reverse, String.mk cap])
    | none =>
      match cs with
      | [] => acc ++ [String.mk seg.reverse]
      | c :: rest => pySplitAuxF fuel rest (c :: seg) acc

/-- `__init__.py` line 96: the token list of a template text. -/
def tokenize (text : String) : List String :=
  pySplitAuxF (text.data.length + 1) text.data [] []

/-! ## The expression compiler: `Template._variable` and `Template._expr_code` -/

/-- Whether `re.match(r'[_a-zA-Z][_a-zA-Z0-9]*$', name)` succeeds: head
character from `[_a-zA-Z]`. -/
def isIdentStart (c : Char) : Bool :=
  c == '_' || (Nat.ble 97 c.toNat && Nat.ble c.toNat 122)
    || (Nat.ble 65 c.toNat && Nat.ble c.toNat 90)

/-- Tail character from `[_a-zA-Z0-9]`. -/
def isIdentRest (c : Char) : Bool :=
  isIdentStart c || (Nat.ble 48 c.toNat && Nat.ble c.toNat 57)

/-- A nonempty run of identifier characters. -/
def identCore : List Char → Bool
  | [] => false
  | c :: cs => isIdentStart c && cs.all isIdentRest

/-- `some cs'` when the input is `cs'` followed by a final newline (Python's
`$` also matches just before a trailing newline). -/
def dropFinalNewline : List Char → Option (List Char)
  | [] => none
  | ['\n'] => some []
  | c :: cs => (dropFinalNewline cs).map (c :: ·)

/-- `re.match(r'[_a-zA-Z][_a-zA-Z0-9]*$', name)` as a Boolean. -/
def pyIdentMatchDollar (cs : List Char) : Bool :=
  identCore cs ||
    (match dropFinalNewline cs with
     | some cs2 => identCore cs2
     | none => false)

/-- `set.add` on the insertion-ordered list modelling a Python set. -/
def insertVar (vs : List String) (name : String) : List String :=
  if vs.contains name then vs else vs ++ [name]

/-- `Template._variable` (lines 43-50): validate `name` against the
identifier pattern, raising `StencilError('invalid variable name', name)` on
failure, and add it to the given variable set. -/
def variableCheck (name : String) (vs : List String) : Except PyErr (List String) :=
  if pyIdentMatchDollar name.data then Except.ok (insertVar vs name)
  else Except.error (PyErr.stencil "invalid variable name" name)

/-- The `else` branch of `_expr_code` (lines 35-37): a bare name compiles to
`c_<name>` and is registered. -/
def exprCodeName (vs : List String) (expr : String) : Except PyErr (String × List String) :=
  match variableCheck expr vs with
  | Except.error e => Except.error e
  | Except.ok vs' => Except.ok ("c_" ++ expr, vs')

/-- The `'.' in expr` branch of `_expr_code` (lines 30-34), reached on an
expression with no pipe: split on dots; the head is compiled recursively
(it contains no dot, so the recursive call lands in the bare-name branch,
which is why this unrolling of the Python recursion is exact), and the
remaining members are embedded via `repr` as `do_dots` arguments, with no
validation. -/
def exprCodeBase (vs : List String) (expr : String) : Except PyErr (String × List String) :=
  if expr.data.any (· == '.') then
    let (d0, drest) := charSplit1 '.' expr.data
    match exprCodeName vs (String.mk d0) with
    | Except.error e => Except.error e
    | Except.ok (code, vs') =>
      Except.ok ("do_dots(" ++ code ++ ", " ++
        joinComma ((drest.map String.mk).map pyRepr) ++ ")", vs')
  else exprCodeName vs expr

/-- The filter loop of `_expr_code` (lines 27-29): each pipe segment is
validated and registered exactly like a variable, and wraps the code built
so far as `c_<func>(<code>)`, left to right. -/
def applyFilters (vs : List String) (code : String) :
    List String → Except PyErr (String × List String)
  | [] => Except.ok (code, vs)
  | func :: rest =>
    match variableCheck func vs with
    | Except.error e => Except.error e
    | Except.ok vs' => applyFilters vs' ("c_" ++ func ++ "(" ++ code ++ ")") rest

/-- `Template._expr_code` (lines 21-38).  The `'|' in expr` branch splits on
pipes and compiles `pipes[0]` recursively; `pipes[0]` contains no pipe, so
that recursive call is exactly `exprCodeBase` — the Python recursion of
depth at most three is unrolled into the three functions here. -/
def exprCodeFull (vs : List String) (expr : String) : Except PyErr (String × List String) :=
  if expr.data.any (· == '|') then
    let (p0, rest) := charSplit1 '|' expr.data
    match exprCodeBase vs (String.mk p0) with
    | Except.error e => Except.error e
    | Except.ok (code, vs') => applyFilters vs' code (rest.map String.mk)
  else exprCodeBase vs expr

/-! ## The control-flow compiler: `Template._compile_template` (lines 74-148)

The generated Python source is modelled at the level of its emitted lines:
the fixed header assignments, each flushed buffer (`append(...)` /
`extend([...])`), each `if` header, and the final `return ''.join(result)`
are emission items carrying their semantic payload, and the reserved section
(`vars_code = code.add_section()`) is the list of prologue line texts
written into it after the scan.  `CodeBuilder`'s indentation counter is
threaded exactly as the source adjusts it (`indent()` after the `def` line,
`indent()`/`dedent()` at block boundaries, the final `dedent()`). -/

/-- A pending output fragment of the compiler's `buffer`: the payload of
`repr(token)` for a literal, or of `'str({expr})'` for an expression. -/
inductive Frag where
  | lit (s : String)
  | strExpr (code : String)
deriving Repr, DecidableEq

/-- One emitted statement of the generated `render` function body.  The four
`assign*` items are the fixed header lines `result = []`,
`append = result.append`, `extend = result.extend` and `str = str`;
`appendOp`/`extendOp` are flushed buffers; `ifHeader` carries the compiled
condition of an `if {expr}:` line; `returnJoin` is `return ''.join(result)`. -/
inductive Op where
  | assignResult
  | assignAppend
  | assignExtend
  | assignStrStr
  | appendOp (f : Frag)
  | extendOp (fs : List Frag)
  | ifHeader (exprCode : String)
  | returnJoin
deriving Repr, DecidableEq

/-- The mutable state of the token loop: the output `buffer`, the
`ops_stack`, the two variable sets of the `Template` object, the
`CodeBuilder` indentation counter, and the body lines emitted so far. -/
structure CState where
  buffer : List Frag
  opsStack : List String
  allVars : List String
  loopVars : List String
  indent : Int
  bodyOps : List Op
deriving Repr, DecidableEq

/-- `flush_output` (lines 86-93): one pending fragment becomes a single
`append`, several become a single `extend`, and the buffer is cleared. -/
def flushOutput (s : CState) : CState :=
  match s.buffer with
  | [] => s
  | [f] => { s with bodyOps := s.bodyOps ++ [Op.appendOp f], buffer := [] }
  | fs => { s with bodyOps := s.bodyOps ++ [Op.extendOp fs], buffer := [] }

/-- One iteration of the token loop (lines 98-141).  The `for`-tag branch
reproduces the source's control flow exactly: in the source, every line of
the valid-`for` handling (lines 120-124, the `ops_stack.append('for')`,
loop-variable registration, expression compilation, loop-header emission and
`indent()`) is nested inside the `if` whose body starts by raising
`'invalid syntax: for'`, so that on a syntactically valid `for` tag the
branch does nothing at all, and on an invalid one it raises before reaching
those lines. -/
def processToken (s : CState) (token : String) : Except PyErr CState :=
  if ("\x7b#".data.isPrefixOf token.data) then
    Except.ok s
  else if ("\x7b\x7b".data.isPrefixOf token.data) then
    match exprCodeFull s.allVars (pyStrip (pySlice2m2 token)) with
    | Except.error e => Except.error e
    | Except.ok (code, vars') =>
      Except.ok { s with allVars := vars', buffer := s.buffer ++ [Frag.strExpr code] }
  else if ("\x7b%".data.isPrefixOf token.data) then
    let s1 := flushOutput s
    let words := pySplitWs (pyStrip (pySlice2m2 token))
    match words with
    | [] => Except.error PyErr.indexError
    | w0 :: _ =>
      if w0 = "if" then
        match words with
        | [_, w1] =>
          match exprCodeFull s1.allVars w1 with
          | Except.error e => Except.error e
          | Except.ok (code, vars') =>
            Except.ok { s1 with
              opsStack := "if" :: s1.opsStack
              allVars := vars'
              bodyOps := s1.bodyOps ++ [Op.ifHeader code]
              indent := s1.indent + 4 }
        | _ => Except.error (PyErr.stencil "invalid syntax: if" token)
      else if w0 = "for" then
        match words with
        | [_, _, w2, _] =>
          if w2 ≠ "in" then Except.error (PyErr.stencil "invalid syntax: for" token)
          else Except.ok s1
        | _ => Except.error (PyErr.stencil "invalid syntax: for" token)
      else if ("end".data.isPrefixOf w0.data) then
        match words with
        | [_] =>
          let endKind := String.mk (w0.data.drop 3)
          match s1.opsStack with
          | [] => Except.error (PyErr.stencil "no opening tag for end" token)
          | start :: rest =>
            if start ≠ endKind then
              Except.error (PyErr.stencil ("mismatched end tag, expected end" ++ start) endKind)
            else Except.ok { s1 with opsStack := rest, indent := s1.indent - 4 }
        | _ => Except.error (PyErr.stencil "invalid syntax: end" token)
      else Except.error (PyErr.stencil "invalid tag" token)
  else
    if token = "" then Except.ok s
    else Except.ok { s with buffer := s.buffer ++ [Frag.lit token] }

/-- The token loop itself. -/
def compileLoop (s : CState) : List String → Except PyErr CState
  | [] => Except.ok s
  | t :: ts =>
    match processToken s t with
    | Except.error e => Except.error e
    | Except.ok s' => compileLoop s' ts

/-- What `_compile_template` has produced just before `get_globals` runs:
the prologue lines written into the reserved section, the body emission
items, and — for stating invariants — the final loop state's buffer, stack,
variable sets and the builder's indentation counter after the final
`dedent()`. -/
structure CompiledParts where
  sectionLines : List String
  bodyOps : List Op
  finalBuffer : List Frag
  opsStack : List String
  allVars : List String
  loopVars : List String
  indent : Int
deriving Repr, DecidableEq

/-- Lines 74-147 of `_compile_template`: emit the header (`code.indent()`
sets the counter to 4; the four header assignments; the reserved section),
run the token loop, then — with no further flush — write one prologue line
`c_<v> = context<repr v>` per variable in `all_vars - loop_vars` into the
section (insertion order stands in for CPython's unspecified set order),
emit the return line, and `dedent()`. -/
def compileCore (text : String) : Except PyErr CompiledParts :=
  let s0 : CState :=
    { buffer := [], opsStack := [], allVars := [], loopVars := [], indent := 4
      bodyOps := [Op.assignResult, Op.assignAppend, Op.assignExtend, Op.assignStrStr] }
  match compileLoop s0 (tokenize text) with
  | Except.error e => Except.error e
  | Except.ok s =>
    Except.ok
      { sectionLines :=
          (s.allVars.filter (fun v => !(s.loopVars.contains v))).map
            (fun v => "c_" ++ v ++ " = context" ++ pyRepr v)
        bodyOps := s.bodyOps ++ [Op.returnJoin]
        finalBuffer := s.buffer
        opsStack := s.opsStack
        allVars := s.allVars
        loopVars := s.loopVars
        indent := s.indent - 4 }

/-- `CodeBuilder.get_globals` (builder.py lines 205-213) applied to the
generated source: `assert self._indent == 0` first, then `exec`.  Every
prologue line has the shape `c_v = context'v'` — a name directly followed by
a string literal — which is a Python `SyntaxError`, so `exec` fails exactly
when the section is nonempty; the body lines themselves are well-formed. -/
def getGlobalsCheck (p : CompiledParts) : Except PyErr Unit :=
  if p.indent ≠ 0 then Except.error PyErr.assertionError
  else if p.sectionLines ≠ [] then Except.error PyErr.syntaxError
  else Except.ok ()

/-! ## Runtime values, contexts and the template facade -/

/-- A Python value as seen by the runtime support: an opaque atom, a
zero-argument callable returning its payload, or an object with an
attribute table and a subscript (key) table — a plain dict is `obj [] items`
(its keys are reachable by subscript, not as attributes). -/
inductive RVal where
  | atom (s : String)
  | callable0 (body : RVal)
  | obj (attrs : List (String × RVal)) (items : List (String × RVal))

/-- A Python dict used as a rendering context. -/
abbrev Ctx := List (String × RVal)

/-- Dict lookup (first matching key). -/
def dictGet : Ctx → String → Option RVal
  | [], _ => none
  | kv :: rest, k => if kv.1 == k then some kv.2 else dictGet rest k

/-- Python `d[k] = v`: replace the entry of an existing key in place, else
append at the end. -/
def dictSet : Ctx → String → RVal → Ctx
  | [], k, v => [(k, v)]
  | kv :: rest, k, v =>
    if kv.1 == k then (kv.1, v) :: rest else kv :: dictSet rest k v

/-- Python `d.update(e)`: set each entry of `e` in iteration order. -/
def pyDictUpdate (d : Ctx) : Ctx → Ctx
  | [] => d
  | kv :: rest => pyDictUpdate (dictSet d kv.1 kv.2) rest

/-- Python `d.copy()`: a fresh dict with the same entries (in the pure
model the same association list, no longer aliased to the original). -/
def pyDictCopy (d : Ctx) : Ctx := d

/-- The `Template` object after a successful `__init__`: the merged base
context and everything compilation produced (`all_vars`, `loop_vars` and
the compiled renderer live in `parts`). -/
structure Template where
  context : Ctx
  parts : CompiledParts

/-- `Template.__init__` (lines 9-19): merge the supplied contexts (later
override earlier), then `_compile_template`, whose tail calls
`get_globals`; any exception aborts construction. -/
def templateInit (text : String) (contexts : List Ctx) : Except PyErr Template :=
  let context := contexts.foldl pyDictUpdate []
  match compileCore text with
  | Except.error e => Except.error e
  | Except.ok p =>
    match getGlobalsCheck p with
    | Except.error e => Except.error e
    | Except.ok _ => Except.ok { context := context, parts := p }

/-! ## Semantics of the generated renderer -/

/-- Executing the generated `render(ctx, do_dots)` body: the statements run
in order.  `str = str` makes `str` local to the function, so reading the
right-hand side before the assignment raises `UnboundLocalError`.  An
expression fragment or `if` header evaluates its compiled code, which always
begins by reading some `c_<name>`; no binding for any `c_<name>` can exist
(the prologue, the only code that would create one, never survives `exec`,
and the generated `for`-headers that would bind loop variables are never
emitted), so such a statement raises `NameError`.  The context argument is
threaded although no executable statement reads it. -/
def renderOps : List Op → Ctx → List String → Except PyErr String
  | [], _, acc => Except.ok (String.join acc)
  | op :: rest, ctx, acc =>
    match op with
    | Op.assignResult => renderOps rest ctx acc
    | Op.assignAppend => renderOps rest ctx acc
    | Op.assignExtend => renderOps rest ctx acc
    | Op.assignStrStr => Except.error PyErr.unboundLocalError
    | Op.appendOp (Frag.lit s) => renderOps rest ctx (acc ++ [s])
    | Op.appendOp (Frag.strExpr _) => Except.error PyErr.nameError
    | Op.extendOp fs =>
      if fs.all (fun f => match f with | Frag.lit _ => true | _ => false) then
        renderOps rest ctx
          (acc ++ fs.filterMap (fun f => match f with | Frag.lit s => some s | _ => none))
      else Except.error PyErr.nameError
    | Op.ifHeader _ => Except.error PyErr.nameError
    | Op.returnJoin => Except.ok (String.join acc)

/-- Lines 57-59 of `render`: `render_ctx = self.context.copy()`, then
`if ctx: render_ctx.update(ctx)` — `None` and the empty dict are falsy, so
only a nonempty override is overlaid, and only onto the fresh copy. -/
def renderCtxOf (t : Template) (ctx : Option Ctx) : Ctx :=
  let renderCtx := pyDictCopy t.context
  match ctx with
  | none => renderCtx
  | some d => if d.isEmpty then renderCtx else pyDictUpdate renderCtx d

/-- `Template.render` (lines 52-60) with the state of the template object
and of the caller's dict threaded explicitly: the result of the renderer
call, and the two objects as the call leaves them.  The only mutating dict
operation performed, `update`, targets `render_ctx`, the fresh copy. -/
def renderSt (t : Template) (ctx : Option Ctx) :
    Except PyErr String × Template × Option Ctx :=
  (renderOps t.parts.bodyOps (renderCtxOf t ctx) [], t, ctx)

/-! ## The runtime dotted-access resolver: `Template._do_dots` (lines 62-72) -/

/-- Attribute-style lookup (`getattr`); `none` models `AttributeError`. -/
def pyGetattr : RVal → String → Option RVal
  | RVal.obj attrs _, name => (attrs.find? (fun kv => kv.1 == name)).map (·.2)
  | _, _ => none

/-- Subscript-style lookup (`value[name]`); `none` models the
`KeyError`/`TypeError` that then propagates. -/
def pyGetitem : RVal → String → Option RVal
  | RVal.obj _ items, name => (items.find? (fun kv => kv.1 == name)).map (·.2)
  | _, _ => none

/-- Python `callable(value)` over the value model. -/
def isCallable : RVal → Bool
  | RVal.callable0 _ => true
  | _ => false

/-- Invoking a zero-argument callable. -/
def callZero : RVal → RVal
  | RVal.callable0 body => body
  | v => v

/-- Lines 70-71: `if callable(value): value = value()` — applied once per
step, after each successful lookup. -/
def autocall (v : RVal) : RVal :=
  if isCallable v then callZero v else v

/-- `_do_dots`: for each name in order, attribute lookup, subscript
fallback, uncaught `keyError` when both fail, and auto-invocation of a
zero-argument callable result before the next name. -/
def doDots : RVal → List String → Except PyErr RVal
  | value, [] => Except.ok value
  | value, d :: rest =>
    match pyGetattr value d with
    | some v => doDots (autocall v) rest
    | none =>
      match pyGetitem value d with
      | some v => doDots (autocall v) rest
      | none => Except.error (PyErr.keyError d)

/-! ## Helper lemmas -/

theorem flushOutput_opsStack (s : CState) : (flushOutput s).opsStack = s.opsStack := by
  unfold flushOutput; split <;> rfl

theorem flushOutput_indent (s : CState) : (flushOutput s).indent = s.indent := by
  unfold flushOutput; split <;> rfl

/-- Every step of the token loop preserves the difference between the
builder's indentation counter and four times the ops-stack depth: the `if`
branch pushes and indents together, the `end` branch pops and dedents
together, and no other branch touches either. -/
theorem processToken_quantity {s s' : CState} {tok : String}
    (h : processToken s tok = Except.ok s') :
    s'.indent - 4 * (s'.opsStack.length : Int) = s.indent - 4 * (s.opsStack.length : Int) := by
  unfold processToken at h
  by_cases h1 : ("\x7b#".data.isPrefixOf tok.data) = true
  · rw [if_pos h1] at h
    cases h; rfl
  · rw [if_neg h1] at h
    by_cases h2 : ("\x7b\x7b".data.isPrefixOf tok.data) = true
    · rw [if_pos h2] at h
      cases he : exprCodeFull s.allVars (pyStrip (pySlice2m2 tok)) with
      | error e => rw [he] at h; exact absurd h (by simp)
      | ok cv =>
        obtain ⟨code, vars'⟩ := cv
        rw [he] at h
        cases h; rfl
    · rw [if_neg h2] at h
      by_cases h3 : ("\x7b%".data.isPrefixOf tok.data) = true
      · rw [if_pos h3] at h
        rcases hws : pySplitWs (pyStrip (pySlice2m2 tok)) with _ | ⟨w0, wrest⟩
        · rw [hws] at h; exact absurd h (by simp)
        · rw [hws] at h
          dsimp only at h
          by_cases hif : w0 = "if"
          · subst hif
            rw [if_pos rfl] at h
            rcases wrest with _ | ⟨w1, wrest2⟩
            · exact absurd h (by simp)
            · rcases wrest2 with _ | ⟨w2, wrest3⟩
              · cases he : exprCodeFull (flushOutput s).allVars w1 with
                | error e => simp [he] at h
                | ok cv =>
                  obtain ⟨code, vars'⟩ := cv
                  simp [he] at h
                  subst h
                  simp only [flushOutput_opsStack, flushOutput_indent, List.length_cons]
                  push_cast
                  ring
              · exact absurd h (by simp)
          · rw [if_neg hif] at h
            by_cases hfor : w0 = "for"
            · subst hfor
              rw [if_pos rfl] at h
              rcases wrest with _ | ⟨w1, wrest2⟩
              · exact absurd h (by simp)
              · rcases wrest2 with _ | ⟨w2, wrest3⟩
                · exact absurd h (by simp)
                · rcases wrest3 with _ | ⟨w3, wrest4⟩
                  · exact absurd h (by simp)
                  · rcases wrest4 with _ | ⟨w4, wrest5⟩
                    · by_cases hin : w2 = "in"
                      · subst hin
                        simp at h
                        subst h
                        simp [flushOutput_opsStack, flushOutput_indent]
                      · simp [hin] at h
                    · exact absurd h (by simp)
            · rw [if_neg hfor] at h
              by_cases hend : ("end".data.isPrefixOf w0.data) = true
              · rw [if_pos hend] at h
                rcases wrest with _ | ⟨w1, wrest2⟩
                · rcases hstk : (flushOutput s).opsStack with _ | ⟨start, rest⟩
                  · simp [hstk] at h
                  · by_cases hne : start = String.mk (w0.data.drop 3)
                    · simp [hstk, hne] at h
                      subst h
                      rw [flushOutput_opsStack] at hstk
                      simp only [flushOutput_opsStack, flushOutput_indent, hstk, List.length_cons]
                      push_cast
                      ring
                    · simp [hstk, hne] at h
                · exact absurd h (by simp)
              · rw [if_neg hend] at h
                exact absurd h (by simp)
      · rw [if_neg h3] at h
        by_cases h4 : tok = ""
        · rw [if_pos h4] at h
          cases h; rfl
        · rw [if_neg h4] at h
          cases h; rfl

/-- The loop invariant, by induction over the token list. -/
theorem compileLoop_quantity :
    ∀ (toks : List String) (s s' : CState), compileLoop s toks = Except.ok s' →
      s'.indent - 4 * (s'.opsStack.length : Int) = s.indent - 4 * (s.opsStack.length : Int)
  | [], s, s', h => by
    unfold compileLoop at h; cases h; rfl
  | t :: ts, s, s', h => by
    unfold compileLoop at h
    cases hp : processToken s t with
    | error e => rw [hp] at h; exact absurd h (by simp)
    | ok s1 =>
      rw [hp] at h
      have h1 := processToken_quantity hp
      have h2 := compileLoop_quantity ts s1 s' h
      omega

theorem dictGet_dictSet_self (d : Ctx) (k : String) (v : RVal) :
    dictGet (dictSet d k v) k = some v := by
  induction d with
  | nil => simp [dictSet, dictGet]
  | cons kv rest ih =>
    by_cases hk : kv.1 = k
    · simp [dictSet, dictGet, hk]
    · simp [dictSet, dictGet, hk, ih]

theorem dictGet_dictSet_ne (d : Ctx) {k k' : String} (hne : k' ≠ k) (v : RVal) :
    dictGet (dictSet d k v) k' = dictGet d k' := by
  induction d with
  | nil => simp [dictSet, dictGet, Ne.symm hne]
  | cons kv rest ih =>
    by_cases hk : kv.1 = k
    · simp [dictSet, dictGet, hk, Ne.symm hne]
    · simp [dictSet, dictGet, hk, ih]

/-- Keys absent from the override dict are untouched by `update`. -/
theorem dictGet_pyDictUpdate_notMem :
    ∀ (e b : Ctx) {k : String}, k ∉ e.map Prod.fst →
      dictGet (pyDictUpdate b e) k = dictGet b k
  | [], _, _, _ => rfl
  | kv :: rest, b, k, h => by
    rw [List.map_cons, List.mem_cons, not_or] at h
    rw [pyDictUpdate, dictGet_pyDictUpdate_notMem rest _ h.2, dictGet_dictSet_ne _ h.1]

/-- A key the override dict does not define resolves in the base dict. -/
theorem dictGet_overlay_none :
    ∀ (e b : Ctx) {k : String}, dictGet e k = none →
      dictGet (pyDictUpdate b e) k = dictGet b k
  | [], _, _, _ => rfl
  | kv :: rest, b, k, h => by
    rw [dictGet] at h
    by_cases hk : kv.1 = k
    · simp [hk] at h
    · rw [pyDictUpdate, dictGet_overlay_none rest _ (by simpa [hk] using h),
        dictGet_dictSet_ne _ (fun hc => hk hc.symm)]

/-- A key the override dict defines wins after `update` (for a dict-shaped
override, i.e. one without duplicate keys). -/
theorem dictGet_overlay_some :
    ∀ (e b : Ctx) {k : String} {v : RVal}, (e.map Prod.fst).Nodup →
      dictGet e k = some v → dictGet (pyDictUpdate b e) k = some v
  | [], _, _, _, _, h => by simp [dictGet] at h
  | kv :: rest, b, k, v, hnd, h => by
    rw [dictGet] at h
    rw [List.map_cons, List.nodup_cons] at hnd
    by_cases hk : kv.1 = k
    · subst hk
      simp only [beq_self_eq_true, if_true] at h
      cases h
      rw [pyDictUpdate, dictGet_pyDictUpdate_notMem rest _ hnd.1, dictGet_dictSet_self]
    · rw [pyDictUpdate]
      exact dictGet_overlay_some rest _ hnd.2 (by simpa [hk] using h)

theorem isPrefixOf_append_self (l m : List Char) : l.isPrefixOf (l ++ m) = true := by
  rw [List.isPrefixOf_iff_prefix]; exact List.prefix_append l m

theorem end_append_ne_if (k : String) : ("end" ++ k : String) ≠ "if" := by
  intro hcon
  have h2 := congrArg String.data hcon
  simp [String.data_append] at h2

theorem end_append_ne_for (k : String) : ("end" ++ k : String) ≠ "for" := by
  intro hcon
  have h2 := congrArg String.data hcon
  simp [String.data_append] at h2

theorem end_isPrefixOf_end_append (k : String) :
    "end".data.isPrefixOf ("end" ++ k : String).data = true := by
  have : ("end" ++ k : String).data = "end".data ++ k.data := String.data_append _ _
  rw [this, isPrefixOf_append_self]

theorem mk_drop3_end_append (k : String) :
    String.mk (("end" ++ k : String).data.drop 3) = k := rfl

theorem prefix_pct_not_hash {tok : String}
    (h : "\x7b%".data.isPrefixOf tok.data = true) :
    ("\x7b#".data.isPrefixOf tok.data) = false ∧
      ("\x7b\x7b".data.isPrefixOf tok.data) = false := by
  rw [List.isPrefixOf_iff_prefix] at h
  obtain ⟨r, hr⟩ := h
  rw [← hr]
  constructor
  · show List.isPrefixOf ['\x7b', '#'] (['\x7b', '%'] ++ r) = false
    simp [List.isPrefixOf]
  · show List.isPrefixOf ['\x7b', '\x7b'] (['\x7b', '%'] ++ r) = false
    simp [List.isPrefixOf]

/-! ## Claim theorems -/

/-- C1: the claim states that a well-formed `for` tag pushes `for`,
registers the loop variable, compiles the expression, emits the loop header
and indents, so that `"{% for n in items %}{{ n }},{% endfor %}"` renders
`"1,2,3,"`.  The code refutes this: construction of that very template
raises `StencilError('invalid syntax: for', ...)` (the whole text is a
single token under the source's split pattern, and its word list has eight
entries), and — the dead-code defect itself — a syntactically valid `for`
tag is a complete no-op: beyond the buffer flush every tag performs, it
pushes nothing, registers nothing, emits nothing and does not indent. -/
theorem C1_for_tag_dead_code :
    templateInit "\x7b% for n in items %\x7d\x7b\x7b n \x7d\x7d,\x7b% endfor %\x7d" [] =
      Except.error (PyErr.stencil "invalid syntax: for"
        "\x7b% for n in items %\x7d\x7b\x7b n \x7d\x7d,\x7b% endfor %\x7d") ∧
    (∀ s : CState, processToken s "\x7b% for a in b %\x7d" = Except.ok (flushOutput s)) :=
  ⟨rfl, fun _ => rfl⟩

/-- C2: the claim states that the back-filled prologue binds each non-loop
variable to its context value, so `Template("{{ x }}")` constructs and
renders `"hi"`.  The code refutes this: for `"{{ x }}"` the prologue line is
the text `c_x = context'x'` — a name directly followed by a string literal,
which is not Python (and names `context`, not the renderer's parameter
`ctx`) — so `exec` raises `SyntaxError` and construction fails. -/
theorem C2_prologue_malformed :
    (compileCore "\x7b\x7b x \x7d\x7d").map (fun p => p.sectionLines) =
      Except.ok ["c_x = context'x'"] ∧
    templateInit "\x7b\x7b x \x7d\x7d" [] = Except.error PyErr.syntaxError :=
  ⟨rfl, rfl⟩

/-- C3: the claim states that pending buffered output is flushed after the
last token, so a purely literal template renders its text.  The code
refutes this: compiling `"hello"` leaves the fragment in the buffer (the
emitted body is exactly the four header assignments and the return — no
`append`/`extend` at all), and the constructed template's `render` raises
`UnboundLocalError` (from the emitted `str = str` line) rather than
returning `"hello"`. -/
theorem C3_final_flush_missing :
    (compileCore "hello").map (fun p => (p.bodyOps, p.finalBuffer)) =
      Except.ok ([Op.assignResult, Op.assignAppend, Op.assignExtend, Op.assignStrStr,
        Op.returnJoin], [Frag.lit "hello"]) ∧
    (templateInit "hello" []).map (fun t => (renderSt t none).1) =
      Except.ok (Except.error PyErr.unboundLocalError) :=
  ⟨rfl, rfl⟩

/-- C4: the claim states that the tokenizer splits on the three delimiter
forms and that `"a{# c #}b"` renders `"ab"`.  The code refutes this: the
split pattern's literal spaces mean neither `"a{# c #}b"` nor
`"a{{ x }}b"` is split at all (each is one literal token), and rendering
the constructed `"a{# c #}b"` template raises `UnboundLocalError` rather
than producing `"ab"`. -/
theorem C4_tokenizer_split_broken :
    tokenize "a\x7b# c #\x7db" = ["a\x7b# c #\x7db"] ∧
    tokenize "a\x7b\x7b x \x7d\x7db" = ["a\x7b\x7b x \x7d\x7db"] ∧
    (templateInit "a\x7b# c #\x7db" []).map (fun t => (renderSt t none).1) =
      Except.ok (Except.error PyErr.unboundLocalError) :=
  ⟨rfl, rfl, rfl⟩

/-- C5: the claim states construction either succeeds or raises the single
templating-error kind (`StencilError`).  The code refutes this:
`Template("{%%}")` reaches `words[0]` on an empty word list and raises
`IndexError`, which is not the templating-error kind (and `"{{ x }}"`
raises `SyntaxError`, see the C2 theorem). -/
theorem C5_construction_foreign_error :
    templateInit "\x7b%%\x7d" [] = Except.error PyErr.indexError ∧
    (∀ msg whereArg, PyErr.indexError ≠ PyErr.stencil msg whereArg) :=
  ⟨rfl, fun _ _ h => PyErr.noConfusion h⟩

/-- C8: pipe filters are split off before dotted access is compiled, so
`a.b|f` compiles to the filter applied to the dotted resolution
(`c_f(do_dots(c_a, 'b'))`, not an access on `f(a)`); filter names are
registered through the same `_variable` path as any referenced name
(witness the `insertVar` chain in the resulting variable set); and
`base|f1|f2` compiles to the left-to-right nesting `c_f2(c_f1(c_base))`.
Stated for an arbitrary incoming variable set. -/
theorem C8_filter_precedence (vs : List String) :
    exprCodeFull vs "a.b|f" =
      Except.ok ("c_f(do_dots(c_a, 'b'))", insertVar (insertVar vs "a") "f") ∧
    exprCodeFull vs "base|f1|f2" =
      Except.ok ("c_f2(c_f1(c_base))",
        insertVar (insertVar (insertVar vs "base") "f1") "f2") :=
  ⟨rfl, rfl⟩

/-- Witness for the C8 theorem at the empty initial variable set: the two
variable sets evaluate to `["a", "f"]` and `["base", "f1", "f2"]`. -/
theorem C8_filter_precedence_witness :
    exprCodeFull [] "a.b|f" = Except.ok ("c_f(do_dots(c_a, 'b'))", ["a", "f"]) ∧
    exprCodeFull [] "base|f1|f2" = Except.ok ("c_f2(c_f1(c_base))", ["base", "f1", "f2"]) :=
  C8_filter_precedence []

/-- C7 counterexample: the claim says a dotted member failing the
identifier pattern is a compile-time error, but compiling `a.1bad`
succeeds: the member `1bad` — which fails the pattern — is embedded
verbatim into the `do_dots` call and never validated, and only `a` is
registered. -/
theorem C7_member_not_validated_cex :
    exprCodeFull [] "a.1bad" = Except.ok ("do_dots(c_a, '1bad')", ["a"]) ∧
    pyIdentMatchDollar "1bad".data = false :=
  ⟨rfl, rfl⟩

/-- C6: at the end of every successful compilation the ops stack is empty —
if the loop leaves blocks open, the builder's final indentation is positive
and `get_globals`'s assertion aborts construction, so no template with a
nonempty final stack is ever produced (part 1, via the invariant
`indent = 4 + 4·|stack|`); an `end` tag with an empty stack raises
`'no opening tag for end'` (part 2); and an `end` tag whose kind differs
from the popped opener raises `'mismatched end tag, expected end<opener>'`
(part 3). -/
theorem C6_ops_stack_discipline :
    (∀ (text : String) (ctxs : List Ctx) (t : Template),
        templateInit text ctxs = Except.ok t → t.parts.opsStack = []) ∧
    (∀ (s : CState) (tok kind : String),
        "\x7b%".data.isPrefixOf tok.data = true →
        pySplitWs (pyStrip (pySlice2m2 tok)) = ["end" ++ kind] →
        (s.opsStack = [] →
            processToken s tok = Except.error (PyErr.stencil "no opening tag for end" tok)) ∧
        (∀ top rest, s.opsStack = top :: rest → top ≠ kind →
            processToken s tok =
              Except.error (PyErr.stencil ("mismatched end tag, expected end" ++ top) kind))) := by
  constructor
  · intro text ctxs t h
    unfold templateInit at h
    cases hc : compileCore text with
    | error e => rw [hc] at h; exact absurd h (by simp)
    | ok p =>
      rw [hc] at h
      dsimp only at h
      cases hg : getGlobalsCheck p with
      | error e => rw [hg] at h; exact absurd h (by simp)
      | ok u =>
        rw [hg] at h
        have hpt : t.parts = p := by cases h; rfl
        have hind : p.indent = 0 := by
          unfold getGlobalsCheck at hg
          by_cases hi : p.indent ≠ 0
          · rw [if_pos hi] at hg; exact absurd hg (by simp)
          · omega
        unfold compileCore at hc
        dsimp only at hc
        split at hc
        · exact absurd hc (by simp)
        · rename_i sf hl
          have hq := compileLoop_quantity _ _ _ hl
          simp only [List.length_nil, Nat.cast_zero, mul_zero, sub_zero] at hq
          have hfields : p.opsStack = sf.opsStack ∧ p.indent = sf.indent - 4 := by
            cases hc; exact ⟨rfl, rfl⟩
          obtain ⟨hst, hin2⟩ := hfields
          have hlen : sf.opsStack.length = 0 := by omega
          rw [hpt, hst]
          exact List.length_eq_zero.mp hlen
  · intro s tok kind hpre hw
    obtain ⟨hn1, hn2⟩ := prefix_pct_not_hash hpre
    have hne_if : ("end" ++ kind : String) ≠ "if" := end_append_ne_if kind
    have hne_for : ("end" ++ kind : String) ≠ "for" := end_append_ne_for kind
    have hpe := end_isPrefixOf_end_append kind
    constructor
    · intro hstk
      unfold processToken
      rw [if_neg (by simp [hn1]), if_neg (by simp [hn2]), if_pos hpre, hw]
      dsimp only
      rw [if_neg hne_if, if_neg hne_for, if_pos hpe, mk_drop3_end_append,
        flushOutput_opsStack, hstk]
    · intro top rest hstk htop
      unfold processToken
      rw [if_neg (by simp [hn1]), if_neg (by simp [hn2]), if_pos hpre, hw]
      dsimp only
      rw [if_neg hne_if, if_neg hne_for, if_pos hpe, mk_drop3_end_append,
        flushOutput_opsStack, hstk]
      dsimp only
      rw [if_pos htop]

/-- Witness for the C6 theorem at concrete inputs: a compiled literal
template has an empty final stack; `"{% endif %}"` against an empty stack
raises the no-opening-tag error; `"{% endfor %}"` against a stack holding
`if` raises the mismatch error. -/
theorem C6_ops_stack_discipline_witness :
    ({ context := [],
       parts :=
         { sectionLines := [],
           bodyOps := [Op.assignResult, Op.assignAppend, Op.assignExtend, Op.assignStrStr,
             Op.returnJoin],
           finalBuffer := [Frag.lit "ab"],
           opsStack := [], allVars := [], loopVars := [], indent := 0 } } :
        Template).parts.opsStack = [] ∧
    processToken
        { buffer := [], opsStack := [], allVars := [], loopVars := [],
          indent := 4, bodyOps := [] } "\x7b% endif %\x7d" =
      Except.error (PyErr.stencil "no opening tag for end" "\x7b% endif %\x7d") ∧
    processToken
        { buffer := [], opsStack := ["if"], allVars := [], loopVars := [],
          indent := 8, bodyOps := [] } "\x7b% endfor %\x7d" =
      Except.error (PyErr.stencil "mismatched end tag, expected endif" "for") :=
  ⟨C6_ops_stack_discipline.1 "ab" [] _ rfl,
   (C6_ops_stack_discipline.2 _ "\x7b% endif %\x7d" "if" rfl rfl).1 rfl,
   (C6_ops_stack_discipline.2 _ "\x7b% endfor %\x7d" "for" rfl rfl).2 "if" [] rfl
     (by decide)⟩

/-- C7 as amended: top-level names and filter names failing the identifier
pattern raise the compile-time error `'invalid variable name'` identifying
the offending text (stated generally for any pipe-free dot-free expression,
and concretely for a filter position and for `Template("{{ 1bad }}")`,
which raises at construction), but dotted members are never validated: they
are embedded verbatim into the `do_dots` call, so `a.1bad` compiles without
any error. -/
theorem C7_identifier_validation_amended :
    (∀ (e : String) (vs : List String),
        e.data.any (· == '|') = false → e.data.any (· == '.') = false →
        pyIdentMatchDollar e.data = false →
        exprCodeFull vs e = Except.error (PyErr.stencil "invalid variable name" e)) ∧
    exprCodeFull [] "a|1bad" = Except.error (PyErr.stencil "invalid variable name" "1bad") ∧
    templateInit "\x7b\x7b 1bad \x7d\x7d" [] =
      Except.error (PyErr.stencil "invalid variable name" "1bad") ∧
    exprCodeFull [] "a.1bad" = Except.ok ("do_dots(c_a, '1bad')", ["a"]) := by
  refine ⟨?_, rfl, rfl, rfl⟩
  intro e vs h1 h2 h3
  unfold exprCodeFull
  rw [if_neg (by simp [h1])]
  unfold exprCodeBase
  rw [if_neg (by simp [h2])]
  unfold exprCodeName variableCheck
  rw [if_neg (by simp [h3])]

/-- Witness for the C7 theorem: the general invalid-name clause applied to
the concrete expression `1bad`. -/
theorem C7_identifier_validation_witness :
    exprCodeFull [] "1bad" = Except.error (PyErr.stencil "invalid variable name" "1bad") :=
  C7_identifier_validation_amended.1 "1bad" [] rfl rfl rfl

/-- C9: the runtime dotted-access resolver processes the names left to
right — a successful attribute lookup continues with the remaining names,
attribute failure falls back to subscript lookup, and when both fail the
lookup failure propagates as an error (uncaught, via the `Except`
propagation of `doDots`); after each successful step a zero-argument
callable result is invoked once and its result becomes the new value, and a
non-callable result is used as is. -/
theorem C9_do_dots_resolver :
    (∀ (value w : RVal) (d : String) (rest : List String),
        (pyGetattr value d = some w →
          doDots value (d :: rest) = doDots (autocall w) rest) ∧
        (pyGetattr value d = none → pyGetitem value d = some w →
          doDots value (d :: rest) = doDots (autocall w) rest) ∧
        (pyGetattr value d = none → pyGetitem value d = none →
          doDots value (d :: rest) = Except.error (PyErr.keyError d))) ∧
    (∀ b : RVal, autocall (RVal.callable0 b) = b) ∧
    (∀ v : RVal, isCallable v = false → autocall v = v) := by
  refine ⟨?_, fun b => rfl, ?_⟩
  · intro value w d rest
    refine ⟨?_, ?_, ?_⟩
    · intro h
      conv_lhs => unfold doDots
      rw [h]
    · intro h1 h2
      conv_lhs => unfold doDots
      rw [h1, h2]
    · intro h1 h2
      conv_lhs => unfold doDots
      rw [h1, h2]
  · intro v h
    unfold autocall
    rw [h]
    rfl

/-- Witness for the C9 theorem: subscript fallback on a dict value,
auto-invocation of a zero-argument callable attribute, and a failed lookup
on an atom. -/
theorem C9_do_dots_resolver_witness :
    doDots (RVal.obj [] [("name", RVal.atom "Ann")]) ["name"] =
      Except.ok (RVal.atom "Ann") ∧
    doDots (RVal.obj [("tag", RVal.callable0 (RVal.atom "X"))] []) ["tag"] =
      Except.ok (RVal.atom "X") ∧
    doDots (RVal.atom "z") ["q"] = Except.error (PyErr.keyError "q") := by
  refine ⟨?_, ?_, ?_⟩
  · have h := ((C9_do_dots_resolver.1 (RVal.obj [] [("name", RVal.atom "Ann")])
      (RVal.atom "Ann") "name" []).2.1) rfl rfl
    rw [h]
    rfl
  · have h := ((C9_do_dots_resolver.1 (RVal.obj [("tag", RVal.callable0 (RVal.atom "X"))] [])
      (RVal.callable0 (RVal.atom "X")) "tag" []).1) rfl
    rw [h]
    rfl
  · exact ((C9_do_dots_resolver.1 (RVal.atom "z") (RVal.atom "z") "q" []).2.2) rfl rfl

/-- C10: a `render(ctx)` call leaves both the template object and the
caller's dict exactly as they were — the state-threaded `renderSt` returns
them unchanged, the only mutating dict operation (`update`) being applied
to the fresh copy `render_ctx` — and the context actually handed to the
renderer is precisely the overlay: with no (or an empty, hence falsy)
override it is the copy of the base context, an override key wins over the
base, and a key absent from the override resolves in the base. -/
theorem C10_render_frame :
    (∀ (t : Template) (ctx : Option Ctx),
        renderSt t ctx = (renderOps t.parts.bodyOps (renderCtxOf t ctx) [], t, ctx)) ∧
    (∀ t : Template, renderCtxOf t none = pyDictCopy t.context) ∧
    (∀ (t : Template) (d : Ctx) (k : String) (v : RVal),
        (d.map Prod.fst).Nodup → d ≠ [] → dictGet d k = some v →
        dictGet (renderCtxOf t (some d)) k = some v) ∧
    (∀ (t : Template) (d : Ctx) (k : String),
        d ≠ [] → dictGet d k = none →
        dictGet (renderCtxOf t (some d)) k = dictGet t.context k) := by
  refine ⟨fun t ctx => rfl, fun t => rfl, ?_, ?_⟩
  · intro t d k v hnd hne hget
    unfold renderCtxOf
    dsimp only
    rw [if_neg (by simp [List.isEmpty_iff, hne])]
    exact dictGet_overlay_some d _ hnd hget
  · intro t d k hne hget
    unfold renderCtxOf
    dsimp only
    rw [if_neg (by simp [List.isEmpty_iff, hne])]
    exact dictGet_overlay_none d _ hget

/-- Witness for the C10 theorem: a one-entry base context overridden (and
not overridden) by a one-entry call context. -/
theorem C10_render_frame_witness :
    dictGet (renderCtxOf
        { context := [("x", RVal.atom "base")],
          parts := { sectionLines := [], bodyOps := [], finalBuffer := [],
                     opsStack := [], allVars := [], loopVars := [], indent := 0 } }
        (some [("x", RVal.atom "hi")])) "x" = some (RVal.atom "hi") ∧
    dictGet (renderCtxOf
        { context := [("x", RVal.atom "base")],
          parts := { sectionLines := [], bodyOps := [], finalBuffer := [],
                     opsStack := [], allVars := [], loopVars := [], indent := 0 } }
        (some [("y", RVal.atom "over")])) "x" =
      dictGet [("x", RVal.atom "base")] "x" :=
  ⟨C10_render_frame.2.2.1 _ [("x", RVal.atom "hi")] "x" (RVal.atom "hi") (by simp)
      (List.cons_ne_nil _ _) rfl,
   C10_render_frame.2.2.2 _ [("y", RVal.atom "over")] "x" (List.cons_ne_nil _ _) rfl⟩

end Stencil
